import Mathlib

/-
Verification development for the openfisca-nl variable definitions
(src/openfisca_nl/variables/*.py) and the evaluation engine they run on.

Monetary amounts and rates are embedded as rationals (ℚ); numpy's
elementwise `maximum`/`minimum`/`where` become `max`/`min`/`if` applied
per entity, and population vectors become lists.
-/

namespace OpenFiscaNL

/-- Modelled from the spec: the period model (section 3 and 4.1) lives in
openfisca-core, not under src/. A period is a month or a calendar year,
identified by its start; a Year period implicitly spans 12 months. -/
inductive Period where
  | month : Int → Nat → Period
  | year : Int → Period
deriving DecidableEq, Repr

/-- Modelled from the spec: `first_month(p)` is the Month period at
(year, 1) for a Year period; a Month period is its own first month. -/
def first_month : Period → Period
  | .year y => .month y 1
  | .month y m => .month y m

/-- Modelled from the spec: `this_year(p)` is the enclosing Year period
of a Month period; a Year period is its own year. -/
def this_year : Period → Period
  | .month y _ => .year y
  | .year y => .year y

/-- Modelled from the spec: `months_of(p)` lists the 12 constituent
Month periods of a Year period, in calendar order. -/
def months_of : Period → List Period
  | .year y => (List.range 12).map (fun i => .month y (i + 1))
  | .month y m => [.month y m]

/-- A bracket scale: ordered list of (threshold, marginal rate) pairs. -/
abbrev Scale := List (ℚ × ℚ)

/-- Upper bound of the current bracket for input v: the next threshold
capped at v, or v itself for the last bracket (min with +infinity). -/
def nextThreshold : Scale → ℚ → ℚ
  | [], v => v
  | b :: _, v => min v b.1

/-- Modelled from the spec (section 4.2): the bracket-scale evaluator of
openfisca-core, not under src/. For input v, tax is the sum over brackets
whose threshold is below v of rate * (min(v, next threshold) - threshold). -/
def scaleCalc : Scale → ℚ → ℚ
  | [], _ => 0
  | (t, r) :: rest, v =>
      (if t < v then r * (nextThreshold rest v - t) else 0) + scaleCalc rest v

/-- A scale is valid when its thresholds are strictly increasing and the
first threshold is 0 (section 4.2's InvalidScale condition). -/
def ValidScale (s : Scale) : Prop :=
  List.Chain' (fun a b => a.1 < b.1) s ∧ s.head?.map Prod.fst = some 0

/-- Per-person caller-supplied inputs for one period: the formula-less
variables read by the formulas under src/, plus `age` (defined outside
src/, read as an input by income_tax). -/
structure PersonIn where
  salary : ℚ
  capital_returns : ℚ
  pension : ℚ
  omzet : ℚ
  kosten : ℚ
  age : ℚ
  urencriterium_voldaan : Bool

/-- Modelled from the spec: the housing occupancy enum (its variable is
defined outside src/); a closed set of symbols containing `owner`,
`tenant` and other statuses. -/
inductive HousingOccupancyStatus where
  | owner
  | tenant
  | free_lodger
  | homeless
deriving DecidableEq, Repr

/-- Household-level inputs: the member persons (each a per-period record)
and the household's formula-less variables, per period. -/
structure HouseholdIn where
  members : List (Period → PersonIn)
  accommodation_size : Period → ℚ
  housing_occupancy_status : Period → HousingOccupancyStatus

/-- The parameter tree for one period, flattened to the leaves the
formulas under src/ read. -/
structure Params where
  algemene_heffingskorting_max : ℚ
  algemene_heffingskorting_income_threshold : ℚ
  algemene_heffingskorting_phase_out_rate : ℚ
  arbeidskorting_max : ℚ
  arbeidskorting_max_income : ℚ
  arbeidskorting_buildup_rate : ℚ
  arbeidskorting_phase_out_rate : ℚ
  age_of_retirement : ℚ
  income_tax_brackets : Scale
  income_tax_brackets_aow : Scale
  social_security_contribution : Scale
  housing_tax_rate : ℚ
  housing_tax_minimal_amount : ℚ
  zelfstandigenaftrek : ℚ
  mkb_winstvrijstelling_rate : ℚ

/-- income.py, `winst_voor_aftrek`: omzet - kosten. -/
def winst_voor_aftrek (p : Period → PersonIn) (per : Period) : ℚ :=
  (p per).omzet - (p per).kosten

/-- self_employment.py, `zelfstandigenaftrek`: the hours criterion is read
at the enclosing year; the annual deduction parameter is divided by 12 and
applied only when the criterion is met (bool times float). -/
def zelfstandigenaftrek (prm : Period → Params) (p : Period → PersonIn)
    (per : Period) : ℚ :=
  let hours_criterion_met := (p (this_year per)).urencriterium_voldaan
  let monthly_deduction := (prm per).zelfstandigenaftrek / 12
  (if hours_criterion_met then 1 else 0) * monthly_deduction

/-- self_employment.py, `mkb_winstvrijstelling`: rate applied to the
profit after the zelfstandigenaftrek, clamped to 0. -/
def mkb_winstvrijstelling (prm : Period → Params) (p : Period → PersonIn)
    (per : Period) : ℚ :=
  let profit_after_deductions :=
    max (winst_voor_aftrek p per - zelfstandigenaftrek prm p per) 0
  profit_after_deductions * (prm per).mkb_winstvrijstelling_rate

/-- self_employment.py, `self_employment_taxable_income`: profit minus
zelfstandigenaftrek minus mkb_winstvrijstelling, clamped to 0. -/
def self_employment_taxable_income (prm : Period → Params)
    (p : Period → PersonIn) (per : Period) : ℚ :=
  max (winst_voor_aftrek p per - zelfstandigenaftrek prm p per
        - mkb_winstvrijstelling prm p per) 0

/-- taxes.py, `taxable_income`: salary + capital_returns + pension plus
self-employment taxable income; no clamp. -/
def taxable_income (prm : Period → Params) (p : Period → PersonIn)
    (per : Period) : ℚ :=
  ((p per).salary + (p per).capital_returns + (p per).pension)
    + self_employment_taxable_income prm p per

/-- taxes.py, `arbeidsinkomen`: salary + self-employment taxable income. -/
def arbeidsinkomen (prm : Period → Params) (p : Period → PersonIn)
    (per : Period) : ℚ :=
  (p per).salary + self_employment_taxable_income prm p per

/-- taxes.py, `algemene_heffingskorting`: annualized taxable income,
phase-out above a threshold, annual credit clamped to 0, divided by 12. -/
def algemene_heffingskorting (prm : Period → Params) (p : Period → PersonIn)
    (per : Period) : ℚ :=
  let params := prm per
  let annual_taxable_income := taxable_income prm p per * 12
  let excess_income :=
    max (annual_taxable_income - params.algemene_heffingskorting_income_threshold) 0
  let reduction := excess_income * params.algemene_heffingskorting_phase_out_rate
  let annual_credit := max (params.algemene_heffingskorting_max - reduction) 0
  annual_credit / 12

/-- taxes.py, `arbeidskorting`: buildup on annualized labor income,
capped, minus phase-out, clamped to 0, divided by 12. -/
def arbeidskorting (prm : Period → Params) (p : Period → PersonIn)
    (per : Period) : ℚ :=
  let params := prm per
  let annual_labor_income := arbeidsinkomen prm p per * 12
  let buildup_credit := annual_labor_income * params.arbeidskorting_buildup_rate
  let excess_income := max (annual_labor_income - params.arbeidskorting_max_income) 0
  let phase_out_reduction := excess_income * params.arbeidskorting_phase_out_rate
  let annual_credit :=
    max 0 (min buildup_credit params.arbeidskorting_max - phase_out_reduction)
  annual_credit / 12

/-- taxes.py, `income_tax`: gross bracket tax on taxable income with the
AOW scale when age >= age_of_retirement (elementwise `where`), minus the
two credits, clamped to 0. -/
def income_tax (prm : Period → Params) (p : Period → PersonIn)
    (per : Period) : ℚ :=
  let ti := taxable_income prm p per
  let is_aow_age := (prm per).age_of_retirement ≤ (p per).age
  let gross_tax_aow := scaleCalc (prm per).income_tax_brackets_aow ti
  let gross_tax_regular := scaleCalc (prm per).income_tax_brackets ti
  let gross_tax := if is_aow_age then gross_tax_aow else gross_tax_regular
  max (gross_tax - algemene_heffingskorting prm p per - arbeidskorting prm p per) 0

/-- The income_tax formula applied to a whole person population,
elementwise (numpy vectorization). -/
def income_tax_pop (prm : Period → Params) (ps : List (Period → PersonIn))
    (per : Period) : List ℚ :=
  ps.map (fun p => income_tax prm p per)

/-- The gross (pre-credit) bracket tax applied to a whole person
population, elementwise, with the per-person scale choice of income_tax. -/
def gross_income_tax_pop (prm : Period → Params) (ps : List (Period → PersonIn))
    (per : Period) : List ℚ :=
  ps.map (fun p =>
    let ti := taxable_income prm p per
    if (prm per).age_of_retirement ≤ (p per).age
    then scaleCalc (prm per).income_tax_brackets_aow ti
    else scaleCalc (prm per).income_tax_brackets ti)

/-- taxes.py, `social_security_contribution`: marginal scale on salary. -/
def social_security_contribution (prm : Period → Params)
    (p : Period → PersonIn) (per : Period) : ℚ :=
  scaleCalc (prm per).social_security_contribution (p per).salary

/-- taxes.py, `housing_tax` (Year-defined): accommodation size and
occupancy status are read at the first month of the year; the amount is
max(size * rate, minimal_amount), paid only by owners and tenants
(bool-to-number sum times amount). -/
def housing_tax (prm : Period → Params) (hh : HouseholdIn)
    (per : Period) : ℚ :=
  let january := first_month per
  let accommodation_size := hh.accommodation_size january
  let tax_amount :=
    max (accommodation_size * (prm per).housing_tax_rate)
      (prm per).housing_tax_minimal_amount
  let occupancy_status := hh.housing_occupancy_status january
  let tenant : ℚ := if occupancy_status = HousingOccupancyStatus.tenant then 1 else 0
  let owner : ℚ := if occupancy_status = HousingOccupancyStatus.owner then 1 else 0
  (owner + tenant) * tax_amount

/-- Modelled from the spec (section 4.5): the DIVIDE period-conversion
option of openfisca-core, not under src/ — a Year-defined household
variable consumed in a Month formula is the annual value divided by 12. -/
def housing_tax_divide (prm : Period → Params) (hh : HouseholdIn)
    (per : Period) : ℚ :=
  housing_tax prm hh (this_year per) / 12

/-- income.py, `disposable_income`: member sums of salary, self-employment
income, capital returns, pension, minus member sums of income tax and
social security contribution, minus housing_tax consumed with DIVIDE. -/
def disposable_income (prm : Period → Params) (hh : HouseholdIn)
    (per : Period) : ℚ :=
  (hh.members.map (fun p => (p per).salary)).sum
    + (hh.members.map (fun p => self_employment_taxable_income prm p per)).sum
    + (hh.members.map (fun p => (p per).capital_returns)).sum
    + (hh.members.map (fun p => (p per).pension)).sum
    - (hh.members.map (fun p => income_tax prm p per)).sum
    - housing_tax_divide prm hh per
    - (hh.members.map (fun p => social_security_contribution prm p per)).sum

/-- stats.py, `total_taxes`: member sums of income tax and social security
contribution, plus housing_tax at the enclosing year divided by 12. -/
def total_taxes (prm : Period → Params) (hh : HouseholdIn)
    (per : Period) : ℚ :=
  (hh.members.map (fun p => income_tax prm p per)).sum
    + (hh.members.map (fun p => social_security_contribution prm p per)).sum
    + housing_tax prm hh (this_year per) / 12

/-- benefits.py, `household_income`: sum of the members' salaries. -/
def household_income (hh : HouseholdIn) (per : Period) : ℚ :=
  (hh.members.map (fun p => (p per).salary)).sum

/-- Entity kinds of the system (section 3). -/
inductive EntityKind where
  | person
  | household
deriving DecidableEq, Repr

/-- Value types of variables (section 3); the enum case is not needed by
the registered variables the claims quantify over. -/
inductive VType where
  | tFloat
  | tBool
deriving DecidableEq, Repr

/-- A runtime value of a variable for one entity. -/
inductive VValue where
  | vFloat : ℚ → VValue
  | vBool : Bool → VValue
deriving DecidableEq, Repr

/-- The default of a value type: 0.0 for float, false for bool. -/
def VType.defaultValue : VType → VValue
  | .tFloat => .vFloat 0
  | .tBool => .vBool false

/-- How a formula derives the period of a dependency from its own period. -/
inductive PeriodRef where
  | samePeriod
  | thisYearOf
  | firstMonthOf
deriving DecidableEq, Repr

/-- Resolve a period reference against the requesting formula's period. -/
def PeriodRef.resolve : PeriodRef → Period → Period
  | .samePeriod, per => per
  | .thisYearOf, per => this_year per
  | .firstMonthOf, per => first_month per

/-- A registered variable (section 3): entity kind, value type, and an
optional formula given by the dependencies it requests and a combining
function from the entity count and the dependency vectors to the result
vector. -/
structure VarDef where
  entity : EntityKind
  vtype : VType
  formula : Option (List (String × PeriodRef) × (Nat → List (List VValue) → List VValue))

/-- A population snapshot: the entity counts (section 3). -/
structure Population where
  nPersons : Nat
  nHouseholds : Nat

/-- Number of entity instances of a kind in a population. -/
def Population.count (pop : Population) : EntityKind → Nat
  | .person => pop.nPersons
  | .household => pop.nHouseholds

/-- Definitional errors that abort an evaluation run (section 7); fuel
exhaustion is an artifact of the bounded-depth embedding. -/
inductive EvalError where
  | unknownVariable
  | cyclicDependency
  | outOfFuel
deriving DecidableEq, Repr

mutual

/-- Modelled from the spec (section 4.4): the dependency evaluator of
openfisca-core, not under src/. A formula-less variable reads the
caller-supplied inputs at the exact (name, period) key and falls back to
the value-type default for every entity of its kind; a formula first
records (name, period) as pending, evaluates its dependencies, and
combines them; re-entering a pending (name, period) is a CyclicDependency.
The per-run memoization cache is omitted: it changes no computed value.
`fuel` bounds the recursion depth of the embedding. -/
def evaluate (reg : String → Option VarDef) (pop : Population)
    (inputs : String → Period → Option (List VValue))
    (fuel : Nat) (pending : List (String × Period))
    (name : String) (per : Period) : Except EvalError (List VValue) :=
  if (name, per) ∈ pending then .error .cyclicDependency
  else
    match reg name with
    | none => .error .unknownVariable
    | some vd =>
      match vd.formula with
      | none =>
          .ok ((inputs name per).getD
            (List.replicate (pop.count vd.entity) vd.vtype.defaultValue))
      | some fr =>
        match fuel with
        | 0 => .error .outOfFuel
        | fuel' + 1 =>
          match evalDeps reg pop inputs fuel' ((name, per) :: pending) fr.1 per with
          | .error e => .error e
          | .ok vs => .ok (fr.2 (pop.count vd.entity) vs)
termination_by (fuel, 0)

/-- Evaluate a formula's dependency list in order, resolving each
dependency's period against the formula's period. -/
def evalDeps (reg : String → Option VarDef) (pop : Population)
    (inputs : String → Period → Option (List VValue))
    (fuel : Nat) (pending : List (String × Period))
    (deps : List (String × PeriodRef)) (per : Period) :
    Except EvalError (List (List VValue)) :=
  match deps with
  | [] => .ok []
  | d :: ds =>
    match evaluate reg pop inputs fuel pending d.1 (d.2.resolve per) with
    | .error e => .error e
    | .ok v =>
      match evalDeps reg pop inputs fuel pending ds per with
      | .error e => .error e
      | .ok vs => .ok (v :: vs)
termination_by (fuel, deps.length + 1)

end

/-- The registry entry of benefits.py's `pension`: a Person float variable
whose formula has no dependencies and returns 0 for every person. -/
def pensionDef : VarDef :=
  { entity := .person
    vtype := .tFloat
    formula := some ([], fun n _ => List.replicate n (VValue.vFloat 0)) }

/-- The formula-less (pure input) variables registered under src/, plus
`pension` (benefits.py), which has a formula: salary and capital_returns
(income.py), omzet and kosten (income.py), urencriterium_voldaan
(self_employment.py). -/
def nlRegistry : String → Option VarDef
  | "salary" => some { entity := .person, vtype := .tFloat, formula := none }
  | "capital_returns" => some { entity := .person, vtype := .tFloat, formula := none }
  | "omzet" => some { entity := .person, vtype := .tFloat, formula := none }
  | "kosten" => some { entity := .person, vtype := .tFloat, formula := none }
  | "urencriterium_voldaan" =>
      some { entity := .person, vtype := .tBool, formula := none }
  | "pension" => some pensionDef
  | _ => none

/-- A registry whose variable `self_cycle` requests itself at the same
period: the direct re-entrant case of section 4.4. -/
def selfCycleRegistry : String → Option VarDef
  | "self_cycle" =>
      some { entity := .person
             vtype := .tFloat
             formula := some ([("self_cycle", .samePeriod)],
               fun n _ => List.replicate n (VValue.vFloat 0)) }
  | _ => none

/-- A registry where `cycle_a` requests `cycle_b` and `cycle_b` requests
`cycle_a`, both at the same period: the transitive re-entrant case. -/
def mutualCycleRegistry : String → Option VarDef
  | "cycle_a" =>
      some { entity := .person
             vtype := .tFloat
             formula := some ([("cycle_b", .samePeriod)],
               fun n _ => List.replicate n (VValue.vFloat 0)) }
  | "cycle_b" =>
      some { entity := .person
             vtype := .tFloat
             formula := some ([("cycle_a", .samePeriod)],
               fun n _ => List.replicate n (VValue.vFloat 0)) }
  | _ => none

/-- Every threshold of a list chained under strict increase from a
non-negative head is non-negative. -/
lemma chain_thresholds_nonneg :
    ∀ (s : Scale) (c : ℚ × ℚ), 0 ≤ c.1 →
      List.Chain' (fun a b => a.1 < b.1) (c :: s) → ∀ p ∈ c :: s, 0 ≤ p.1 := by
  intro s
  induction s with
  | nil =>
    intro c hc _ p hp
    rw [List.mem_singleton] at hp
    exact hp ▸ hc
  | cons b tl ih =>
    intro c hc hch p hp
    rcases List.mem_cons.mp hp with h | h
    · exact h ▸ hc
    · exact ih b (le_of_lt (lt_of_le_of_lt hc (List.chain'_cons.mp hch).1))
        (List.chain'_cons.mp hch).2 p h

/-- In a valid scale all thresholds are non-negative. -/
lemma thresholds_nonneg (s : Scale) (h : ValidScale s) : ∀ p ∈ s, 0 ≤ p.1 := by
  obtain ⟨hch, hhead⟩ := h
  cases s with
  | nil => simp at hhead
  | cons c tl =>
    have hc : c.1 = 0 := by simpa using hhead
    exact chain_thresholds_nonneg tl c (le_of_eq hc.symm) hch

/-- With non-negative thresholds, the bracket tax of a non-positive value
is zero: no bracket is entered. -/
lemma scaleCalc_nonpos_eq_zero :
    ∀ (s : Scale), (∀ p ∈ s, 0 ≤ p.1) → ∀ v : ℚ, v ≤ 0 → scaleCalc s v = 0 := by
  intro s
  induction s with
  | nil => intro _ v _; rfl
  | cons c rest ih =>
    intro h v hv
    obtain ⟨t, r⟩ := c
    have ht : ¬ t < v := not_lt.mpr (hv.trans (h (t, r) (List.mem_cons_self _ _)))
    simp [scaleCalc, ht, ih (fun p hp => h p (List.mem_cons_of_mem _ hp)) v hv]

/-- With strictly increasing thresholds and non-negative rates, the
bracket tax is non-decreasing in the input value. -/
lemma scaleCalc_mono :
    ∀ (s : Scale), List.Chain' (fun a b => a.1 < b.1) s → (∀ p ∈ s, 0 ≤ p.2) →
      ∀ v1 v2 : ℚ, v1 ≤ v2 → scaleCalc s v1 ≤ scaleCalc s v2 := by
  intro s
  induction s with
  | nil => intro _ _ v1 v2 _; exact le_rfl
  | cons c rest ih =>
    intro hch hr v1 v2 h
    obtain ⟨t, r⟩ := c
    have hr0 : (0 : ℚ) ≤ r := hr (t, r) (List.mem_cons_self _ _)
    have htail : scaleCalc rest v1 ≤ scaleCalc rest v2 :=
      ih (List.Chain'.tail hch) (fun p hp => hr p (List.mem_cons_of_mem _ hp)) v1 v2 h
    have hnt_mono : nextThreshold rest v1 ≤ nextThreshold rest v2 := by
      cases rest with
      | nil => exact h
      | cons b tl => exact min_le_min h le_rfl
    have hnt_gt : t < v2 → t < nextThreshold rest v2 := by
      intro hv2
      cases rest with
      | nil => exact hv2
      | cons b tl => exact lt_min hv2 (List.chain'_cons.mp hch).1
    simp only [scaleCalc]
    apply add_le_add _ htail
    by_cases h1 : t < v1
    · rw [if_pos h1, if_pos (lt_of_lt_of_le h1 h)]
      exact mul_le_mul_of_nonneg_left (sub_le_sub_right hnt_mono t) hr0
    · rw [if_neg h1]
      by_cases h2 : t < v2
      · rw [if_pos h2]
        exact mul_nonneg hr0 (sub_nonneg.mpr (hnt_gt h2).le)
      · rw [if_neg h2]

/-- C2 (amended): for every bracket scale with strictly increasing
thresholds starting at 0 and, additionally, non-negative marginal rates,
scaleCalc is non-decreasing in the value; scaleCalc at 0 is 0 and
scaleCalc of any non-positive value is 0 (these two need no rate
condition beyond the scale hypotheses stated here). -/
theorem C2_scaleCalc_monotone_zero (s : Scale) (hvalid : ValidScale s)
    (hrates : ∀ p ∈ s, 0 ≤ p.2) :
    (∀ v1 v2 : ℚ, v1 ≤ v2 → 0 ≤ v2 → scaleCalc s v1 ≤ scaleCalc s v2)
      ∧ scaleCalc s 0 = 0 ∧ ∀ v : ℚ, v ≤ 0 → scaleCalc s v = 0 := by
  have hth : ∀ p ∈ s, 0 ≤ p.1 := thresholds_nonneg s hvalid
  exact ⟨fun v1 v2 h _ => scaleCalc_mono s hvalid.1 hrates v1 v2 h,
    scaleCalc_nonpos_eq_zero s hth 0 le_rfl,
    fun v hv => scaleCalc_nonpos_eq_zero s hth v hv⟩

/-- C2 witness: the two-bracket scale of the spec example, rates 10% and
30%, evaluated at concrete values. -/
theorem C2_scaleCalc_monotone_zero_witness :
    ValidScale [((0 : ℚ), (1 / 10 : ℚ)), ((2000 : ℚ), (3 / 10 : ℚ))]
      ∧ scaleCalc [((0 : ℚ), (1 / 10 : ℚ)), ((2000 : ℚ), (3 / 10 : ℚ))] 1000
          ≤ scaleCalc [((0 : ℚ), (1 / 10 : ℚ)), ((2000 : ℚ), (3 / 10 : ℚ))] 3000
      ∧ scaleCalc [((0 : ℚ), (1 / 10 : ℚ)), ((2000 : ℚ), (3 / 10 : ℚ))] 0 = 0 := by
  have hvalid : ValidScale [((0 : ℚ), (1 / 10 : ℚ)), ((2000 : ℚ), (3 / 10 : ℚ))] := by
    constructor
    · simp [List.chain'_cons]
    · rfl
  have hrates : ∀ p ∈ [((0 : ℚ), (1 / 10 : ℚ)), ((2000 : ℚ), (3 / 10 : ℚ))], 0 ≤ p.2 := by
    intro p hp
    rcases List.mem_cons.mp hp with h | h
    · rw [h]; norm_num
    · rw [List.mem_singleton] at h; rw [h]; norm_num
  exact ⟨hvalid,
    (C2_scaleCalc_monotone_zero _ hvalid hrates).1 1000 3000 (by norm_num) (by norm_num),
    (C2_scaleCalc_monotone_zero _ hvalid hrates).2.1⟩

/-- C2 counterexample: the scale [(0, -1)] satisfies the claim's
hypotheses (strictly increasing thresholds starting at 0), yet scaleCalc
decreases between v1 = 0 and v2 = 1, refuting monotonicity as stated. -/
theorem C2_counterexample :
    ValidScale [((0 : ℚ), (-1 : ℚ))]
      ∧ (0 : ℚ) ≤ 1
      ∧ ¬ scaleCalc [((0 : ℚ), (-1 : ℚ))] 0 ≤ scaleCalc [((0 : ℚ), (-1 : ℚ))] 1 := by
  refine ⟨⟨List.chain'_singleton _, rfl⟩, by norm_num, ?_⟩
  norm_num [scaleCalc, nextThreshold]

/-- C8: a Year period decomposes into its 12 Month periods in calendar
order, and this_year after first_month is the identity on Year periods. -/
theorem C8_months_roundtrip (y : Int) :
    months_of (Period.year y)
        = [Period.month y 1, Period.month y 2, Period.month y 3, Period.month y 4,
           Period.month y 5, Period.month y 6, Period.month y 7, Period.month y 8,
           Period.month y 9, Period.month y 10, Period.month y 11, Period.month y 12]
      ∧ (months_of (Period.year y)).length = 12
      ∧ this_year (first_month (Period.year y)) = Period.year y := by
  exact ⟨rfl, rfl, rfl⟩

/-- Any month of a year's decomposition has that year as its this_year. -/
lemma this_year_of_mem_months {y : Int} {per : Period}
    (h : per ∈ months_of (Period.year y)) : this_year per = Period.year y := by
  simp only [months_of, List.mem_map, List.mem_range] at h
  obtain ⟨i, _, rfl⟩ := h
  rfl

/-- C3: inside any month of a year, the housing_tax amount consumed with
the DIVIDE flag (disposable_income) and the explicitly divided amount
(total_taxes) both equal housing_tax of that year divided by 12 — a value
independent of which of the 12 months is being computed. -/
theorem C3_housing_tax_monthly (prm : Period → Params) (hh : HouseholdIn)
    (y : Int) (per : Period) (h : per ∈ months_of (Period.year y)) :
    housing_tax_divide prm hh per = housing_tax prm hh (Period.year y) / 12
      ∧ total_taxes prm hh per =
          (hh.members.map (fun p => income_tax prm p per)).sum
            + (hh.members.map (fun p => social_security_contribution prm p per)).sum
            + housing_tax prm hh (Period.year y) / 12
      ∧ disposable_income prm hh per =
          (hh.members.map (fun p => (p per).salary)).sum
            + (hh.members.map (fun p => self_employment_taxable_income prm p per)).sum
            + (hh.members.map (fun p => (p per).capital_returns)).sum
            + (hh.members.map (fun p => (p per).pension)).sum
            - (hh.members.map (fun p => income_tax prm p per)).sum
            - housing_tax prm hh (Period.year y) / 12
            - (hh.members.map (fun p => social_security_contribution prm p per)).sum := by
  have hy := this_year_of_mem_months h
  refine ⟨?_, ?_, ?_⟩ <;>
    simp [housing_tax_divide, total_taxes, disposable_income, hy]

/-- C3 witness: May 2024 inside the year 2024, for a concrete household
and parameter set. -/
theorem C3_housing_tax_monthly_witness :
    Period.month 2024 5 ∈ months_of (Period.year 2024)
      ∧ housing_tax_divide (fun _ => ⟨0, 0, 0, 0, 0, 0, 0, 67, [], [], [], 5, 100, 0, 0⟩)
          ⟨[], fun _ => 40, fun _ => .owner⟩ (Period.month 2024 5)
        = housing_tax (fun _ => ⟨0, 0, 0, 0, 0, 0, 0, 67, [], [], [], 5, 100, 0, 0⟩)
            ⟨[], fun _ => 40, fun _ => .owner⟩ (Period.year 2024) / 12 :=
  ⟨by decide, (C3_housing_tax_monthly _ _ 2024 _ (by decide)).1⟩

/-- C1: for every person and month, income_tax equals the gross
bracket-scale tax on taxable_income (with the age-selected scale) minus
the sum of the two credits, clamped at 0 from below, and is therefore
never negative. -/
theorem C1_income_tax_formula (prm : Period → Params) (p : Period → PersonIn)
    (per : Period) :
    income_tax prm p per
        = max ((if (prm per).age_of_retirement ≤ (p per).age
                then scaleCalc (prm per).income_tax_brackets_aow (taxable_income prm p per)
                else scaleCalc (prm per).income_tax_brackets (taxable_income prm p per))
            - (algemene_heffingskorting prm p per + arbeidskorting prm p per)) 0
      ∧ 0 ≤ income_tax prm p per := by
  constructor
  · simp only [income_tax, sub_sub]
  · simp only [income_tax]
    exact le_max_right _ 0

/-- C4: taxable_income is the unclamped sum of salary, capital returns,
pension and self-employment taxable income, and a person with salary 3000
and everything else zero has taxable_income exactly 3000. -/
theorem C4_taxable_income_sum :
    (∀ (prm : Period → Params) (p : Period → PersonIn) (per : Period),
        taxable_income prm p per
          = (p per).salary + (p per).capital_returns + (p per).pension
              + self_employment_taxable_income prm p per)
      ∧ ∀ (prm : Period → Params) (per : Period),
          taxable_income prm (fun _ => ⟨3000, 0, 0, 0, 0, 30, false⟩) per = 3000 := by
  constructor
  · intro prm p per
    rfl
  · intro prm per
    simp [taxable_income, self_employment_taxable_income, winst_voor_aftrek,
      zelfstandigenaftrek, mkb_winstvrijstelling]

/-- C5: income_tax and self_employment_taxable_income are clamped at 0,
while taxable_income is not: with capital_returns = -5000 and every other
input zero it is exactly -5000, whatever the parameters. -/
theorem C5_clamping :
    (∀ (prm : Period → Params) (p : Period → PersonIn) (per : Period),
        0 ≤ income_tax prm p per)
      ∧ (∀ (prm : Period → Params) (p : Period → PersonIn) (per : Period),
          0 ≤ self_employment_taxable_income prm p per)
      ∧ ∀ (prm : Period → Params) (per : Period),
          taxable_income prm (fun _ => ⟨0, -5000, 0, 0, 0, 40, false⟩) per = -5000 := by
    refine ⟨fun prm p per => ?_, fun prm p per => ?_, fun prm per => ?_⟩
    · simp only [income_tax]
      exact le_max_right _ 0
    · simp only [self_employment_taxable_income]
      exact le_max_right _ 0
    · simp [taxable_income, self_employment_taxable_income, winst_voor_aftrek,
        zelfstandigenaftrek, mkb_winstvrijstelling]

/-- C9: for a Year period, housing_tax is max(size * rate, minimal_amount)
for owner or tenant households (inputs read at the January month of that
year) and 0 for every other occupancy status; an owner or tenant household
with accommodation_size 0 still pays at least the minimal amount. -/
theorem C9_housing_tax (prm : Period → Params) (hh : HouseholdIn) (y : Int) :
    (housing_tax prm hh (Period.year y)
        = if hh.housing_occupancy_status (Period.month y 1) = HousingOccupancyStatus.owner
              ∨ hh.housing_occupancy_status (Period.month y 1) = HousingOccupancyStatus.tenant
          then max (hh.accommodation_size (Period.month y 1) * (prm (Period.year y)).housing_tax_rate)
                 (prm (Period.year y)).housing_tax_minimal_amount
          else 0)
      ∧ (prm (Period.year y)).housing_tax_minimal_amount
          ≤ housing_tax prm ⟨hh.members, fun _ => 0, fun _ => .owner⟩ (Period.year y)
      ∧ (prm (Period.year y)).housing_tax_minimal_amount
          ≤ housing_tax prm ⟨hh.members, fun _ => 0, fun _ => .tenant⟩ (Period.year y) := by
  refine ⟨?_, ?_, ?_⟩
  · cases hst : hh.housing_occupancy_status (Period.month y 1) <;>
      simp [housing_tax, first_month, hst]
  · simp [housing_tax, first_month]
  · simp [housing_tax, first_month]

/-- C10: the gross tax inside income_tax uses the AOW bracket scale
exactly when the person's age is at least the retirement-age parameter,
and the population formula computes this selection per person. -/
theorem C10_scale_selection :
    (∀ (prm : Period → Params) (p : Period → PersonIn) (per : Period),
        income_tax prm p per
          = max (scaleCalc
                  (if (prm per).age_of_retirement ≤ (p per).age
                   then (prm per).income_tax_brackets_aow
                   else (prm per).income_tax_brackets)
                  (taxable_income prm p per)
              - algemene_heffingskorting prm p per - arbeidskorting prm p per) 0)
      ∧ ∀ (prm : Period → Params) (ps : List (Period → PersonIn)) (per : Period) (i : Nat),
          (gross_income_tax_pop prm ps per)[i]?
            = (ps[i]?).map (fun p =>
                scaleCalc (if (prm per).age_of_retirement ≤ (p per).age
                           then (prm per).income_tax_brackets_aow
                           else (prm per).income_tax_brackets)
                  (taxable_income prm p per)) := by
  constructor
  · intro prm p per
    by_cases hage : (prm per).age_of_retirement ≤ (p per).age <;>
      simp [income_tax, hage]
  · intro prm ps per i
    simp only [gross_income_tax_pop, List.getElem?_map]
    refine Option.map_congr fun p _ => ?_
    by_cases hage : (prm per).age_of_retirement ≤ (p per).age <;> simp [hage]

/-- Requesting a (name, period) pair that is already pending yields a
CyclicDependency error, whatever the registry, inputs or fuel. -/
lemma evaluate_of_mem_pending (reg : String → Option VarDef) (pop : Population)
    (inputs : String → Period → Option (List VValue)) (fuel : Nat)
    (pending : List (String × Period)) (name : String) (per : Period)
    (h : (name, per) ∈ pending) :
    evaluate reg pop inputs fuel pending name per = .error .cyclicDependency := by
  rw [evaluate]
  rw [if_pos h]

/-- C6 (amended): every formula-less variable registered under src/
evaluates, at a period absent from the caller-supplied inputs, to the
value-type default for every entity of its kind; pension, which is not
formula-less, evaluates through its constant formula to 0 for every
person. -/
theorem C6_input_defaults :
    (∀ (pop : Population) (inputs : String → Period → Option (List VValue))
        (fuel : Nat) (per : Period) (name : String) (vd : VarDef),
        nlRegistry name = some vd → vd.formula = none → inputs name per = none →
        evaluate nlRegistry pop inputs fuel [] name per
          = .ok (List.replicate (pop.count vd.entity) vd.vtype.defaultValue))
      ∧ ∀ (pop : Population) (inputs : String → Period → Option (List VValue))
          (fuel : Nat) (per : Period),
          evaluate nlRegistry pop inputs (fuel + 1) [] "pension" per
            = .ok (List.replicate pop.nPersons (VValue.vFloat 0)) := by
  constructor
  · intro pop inputs fuel per name vd hreg hform hinp
    rw [evaluate]
    simp [hreg, hform, hinp]
  · intro pop inputs fuel per
    rw [evaluate]
    simp [nlRegistry, pensionDef, evalDeps, Population.count]

/-- C6 witness: salary requested with empty inputs on a population of two
persons evaluates to the float default 0.0 for both persons. -/
theorem C6_input_defaults_witness :
    nlRegistry "salary" = some { entity := .person, vtype := .tFloat, formula := none }
      ∧ evaluate nlRegistry ⟨2, 1⟩ (fun _ _ => none) 0 [] "salary" (Period.month 2024 1)
          = .ok (List.replicate 2 (VValue.vFloat 0)) :=
  ⟨rfl, C6_input_defaults.1 ⟨2, 1⟩ (fun _ _ => none) 0 (Period.month 2024 1) "salary"
    { entity := .person, vtype := .tFloat, formula := none } rfl rfl rfl⟩

/-- C6 counterexample: pension, listed by the claim among the
formula-less variables, does carry a formula in its registered definition
(benefits.py gives it a formula returning 0). -/
theorem C6_counterexample :
    (nlRegistry "pension").map (fun vd => vd.formula.isSome) = some true := rfl

/-- C7: re-entering a pending (name, period) pair yields CyclicDependency
for any registry; a variable requesting itself at the same period, and a
pair of variables requesting each other, both abort with CyclicDependency
at any recursion budget instead of recursing unboundedly. -/
theorem C7_cyclic_dependency :
    (∀ (reg : String → Option VarDef) (pop : Population)
        (inputs : String → Period → Option (List VValue)) (fuel : Nat)
        (pending : List (String × Period)) (name : String) (per : Period),
        (name, per) ∈ pending →
        evaluate reg pop inputs fuel pending name per = .error .cyclicDependency)
      ∧ (∀ (pop : Population) (inputs : String → Period → Option (List VValue))
          (fuel : Nat) (per : Period),
          evaluate selfCycleRegistry pop inputs (fuel + 1) [] "self_cycle" per
            = .error .cyclicDependency)
      ∧ ∀ (pop : Population) (inputs : String → Period → Option (List VValue))
          (fuel : Nat) (per : Period),
          evaluate mutualCycleRegistry pop inputs (fuel + 2) [] "cycle_a" per
            = .error .cyclicDependency := by
  refine ⟨evaluate_of_mem_pending, ?_, ?_⟩
  · intro pop inputs fuel per
    have hinner := evaluate_of_mem_pending selfCycleRegistry pop inputs fuel
      [("self_cycle", per)] "self_cycle" per (by simp)
    rw [evaluate]
    simp [selfCycleRegistry, evalDeps, PeriodRef.resolve, hinner]
  · intro pop inputs fuel per
    have hb : evaluate mutualCycleRegistry pop inputs (fuel + 1)
        [("cycle_a", per)] "cycle_b" per = .error .cyclicDependency := by
      have ha := evaluate_of_mem_pending mutualCycleRegistry pop inputs fuel
        [("cycle_b", per), ("cycle_a", per)] "cycle_a" per (by simp)
      rw [evaluate]
      simp [mutualCycleRegistry, evalDeps, PeriodRef.resolve, ha]
    rw [evaluate]
    simp [mutualCycleRegistry, evalDeps, PeriodRef.resolve, hb]

/-- C7 witness: the pending-pair guard at a concrete pending list, name
and period. -/
theorem C7_cyclic_dependency_witness :
    ("self_cycle", Period.month 2024 1) ∈ [("self_cycle", Period.month 2024 1)]
      ∧ evaluate selfCycleRegistry ⟨1, 1⟩ (fun _ _ => none) 3
          [("self_cycle", Period.month 2024 1)] "self_cycle" (Period.month 2024 1)
          = .error .cyclicDependency :=
  ⟨by decide, C7_cyclic_dependency.1 selfCycleRegistry ⟨1, 1⟩ (fun _ _ => none) 3
    [("self_cycle", Period.month 2024 1)] "self_cycle" (Period.month 2024 1) (by decide)⟩

end OpenFiscaNL
